import Mathlib

/-!
Verification development for the CHFS 2017 siblings/debt analysis pipeline
(`chfs2017-siblings-debt-analysis.py`).

The pipeline's core is embedded shallowly:
* survey amounts and interval codes are `Option ℚ` (with `none` playing the
  role of pandas `NaN`);
* one household row of the household table is a function `String → Option ℚ`
  together with the list of structurally present columns of the table;
* the midpoint resolver `get_midpoint`, the exact/interval coalescing, the
  debt/asset totals, the debt ratio and the winsorization of the debt-ratio
  column are translated definition by definition from the script.
-/

/-! ## Variable catalogs (source lines 100-131) -/

def debt_bus_bank : List String := ["b3005b_2"]

def debt_bus_private : List String := ["b3031a_2"]

def debt_bus_private_it : List String := ["b3031ait_2"]

def debt_house_bank : List String :=
  ["c2064_1", "c2064_2", "c2064_3", "c2064_4", "c2064_5", "c2064_6"]

def debt_house_bank_it : List String :=
  ["c2064it_1", "c2064it_2", "c2064it_3", "c2064it_4", "c2064it_5", "c2064it_6"]

def debt_house_other : List String :=
  ["c3002a_1", "c3002a_2", "c3002a_3", "c3002a_4", "c3002a_5", "c3002a_6"]

def debt_house_other_it : List String :=
  ["c3002ait_1", "c3002ait_2", "c3002ait_3", "c3002ait_4", "c3002ait_5", "c3002ait_6"]

def debt_house_agg_other : List String := ["c2023e"]

def debt_house_agg_other_it : List String := ["c2023eit"]

def debt_house_collateral : List String := ["c3017ca"]

def debt_house_collateral_it : List String := ["c3017cait"]

def debt_shop_bank : List String := ["c3019c"]

def debt_shop_bank_it : List String := ["c3019cit"]

def debt_shop_other : List String := ["c3019e"]

def debt_shop_other_it : List String := ["c3019eit"]

def debt_car : List String := ["c7060"]

def debt_car_it : List String := ["c7060it"]

def debt_vehicle_other : List String := ["c7061"]

def debt_vehicle_other_it : List String := ["c7061it"]

def debt_durable : List String := ["c8007"]

def debt_durable_it : List String := ["c8007it"]

def debt_stock : List String := ["d3116b"]

def debt_finance_other : List String := ["d9108"]

def debt_finance_other_it : List String := ["d9108it"]

def debt_edu_bank : List String := ["e1006"]

def debt_edu_bank_it : List String := ["e1006it"]

def debt_edu_private : List String := ["e1022"]

def debt_edu_private_it : List String := ["e1022it"]

def debt_medical : List String := ["e4003"]

def debt_medical_it : List String := ["e4003it"]

def debt_other : List String := ["e3003c"]

def debt_other_it : List String := ["e3003cit"]

def all_debt_exact_vars : List String :=
  debt_bus_bank ++ debt_bus_private ++ debt_house_bank ++ debt_house_other ++
    debt_house_agg_other ++ debt_house_collateral ++ debt_shop_bank ++ debt_shop_other ++
    debt_car ++ debt_vehicle_other ++ debt_durable ++ debt_stock ++ debt_finance_other ++
    debt_edu_bank ++ debt_edu_private ++ debt_medical ++ debt_other

def all_debt_interval_vars : List String :=
  debt_bus_private_it ++ debt_house_bank_it ++ debt_house_other_it ++
    debt_house_agg_other_it ++ debt_house_collateral_it ++ debt_shop_bank_it ++
    debt_shop_other_it ++ debt_car_it ++ debt_vehicle_other_it ++ debt_durable_it ++
    debt_finance_other_it ++ debt_edu_bank_it ++ debt_edu_private_it ++
    debt_medical_it ++ debt_other_it

def asset_bus : List String := ["b2003d"]

def asset_bus_it : List String := ["b2003dit"]

def asset_house : List String :=
  ["c2016_1", "c2016_2", "c2016_3", "c2016_4", "c2016_5", "c2016_6"]

def asset_house_it : List String :=
  ["c2016it_1", "c2016it_2", "c2016it_3", "c2016it_4", "c2016it_5", "c2016it_6"]

def asset_house_agg_other : List String := ["c2023d"]

def asset_house_agg_other_it : List String := ["c2023dit"]

def asset_shop : List String := ["c3019a"]

def asset_shop_it : List String := ["c3019ait"]

def asset_car : List String := ["c7052b"]

def asset_car_it : List String := ["c7052bit"]

def asset_vehicle_comm : List String := ["c7059"]

def asset_vehicle_other : List String := ["c7058"]

def vehicle_in_business_col : String := "c7062"

def vehicle_in_business_col_it : String := "c7062it"

def asset_durable : List String := ["c8002"]

def asset_other_nonfin : List String := ["c8005"]

def asset_deposit_checking : List String := ["d1105"]

def asset_deposit_checking_it : List String := ["d1105it"]

def asset_deposit_savings : List String := ["d2104"]

def asset_deposit_savings_it : List String := ["d2104it"]

def asset_stock_cash : List String := ["d3103"]

def asset_stock_cash_it : List String := ["d3103it"]

def asset_stock_value : List String := ["d3109"]

def asset_stock_value_it : List String := ["d3109it"]

def asset_stock_nonpublic : List String := ["d3116"]

def asset_stock_nonpublic_it : List String := ["d3116it"]

def asset_fund : List String := ["d5107"]

def asset_fund_it : List String := ["d5107it"]

def asset_internet_finance : List String := ["d7106h"]

def asset_internet_finance_it : List String := ["d7106hit"]

def asset_other_finance_prod : List String := ["d7110a"]

def asset_other_finance_prod_it : List String := ["d7110ait"]

def asset_bond : List String :=
  ["d4103_1", "d4103_2", "d4103_3", "d4103_4", "d4103_5"]

def asset_bond_it : List String :=
  ["d4103it_1", "d4103it_2", "d4103it_3", "d4103it_4", "d4103it_5"]

def asset_derivative : List String := ["d6100a"]

def asset_derivative_it : List String := ["d6100ait"]

def asset_non_rmb : List String := ["d8104"]

def asset_non_rmb_it : List String := ["d8104it"]

def asset_gold : List String := ["d9103"]

def asset_gold_it : List String := ["d9103it"]

def asset_other_fin : List String := ["d9110a"]

def asset_other_fin_it : List String := ["d9110ait"]

def asset_cash : List String := ["k1101"]

def asset_cash_it : List String := ["k1101it"]

def asset_receivable : List String := ["k2102c"]

def asset_receivable_it : List String := ["k2102cit"]

def all_asset_exact_vars : List String :=
  asset_bus ++ asset_house ++ asset_house_agg_other ++ asset_shop ++ asset_car ++
    asset_vehicle_comm ++ asset_vehicle_other ++ asset_durable ++ asset_other_nonfin ++
    asset_deposit_checking ++ asset_deposit_savings ++ asset_stock_cash ++
    asset_stock_value ++ asset_stock_nonpublic ++ asset_fund ++ asset_internet_finance ++
    asset_other_finance_prod ++ asset_bond ++ asset_derivative ++ asset_non_rmb ++
    asset_gold ++ asset_other_fin ++ asset_cash ++ asset_receivable

def all_asset_interval_vars : List String :=
  asset_bus_it ++ asset_house_it ++ asset_house_agg_other_it ++ asset_shop_it ++
    asset_car_it ++ asset_deposit_checking_it ++ asset_deposit_savings_it ++
    asset_stock_cash_it ++ asset_stock_value_it ++ asset_stock_nonpublic_it ++
    asset_fund_it ++ asset_internet_finance_it ++ asset_other_finance_prod_it ++
    asset_bond_it ++ asset_derivative_it ++ asset_non_rmb_it ++ asset_gold_it ++
    asset_other_fin_it ++ asset_cash_it ++ asset_receivable_it

/-- All columns the pipeline needs (source lines 289-291); membership here is
what `list(set(...))` is used for.  Duplicates are removed by `dedup` only
where the synthesized-column count is taken. -/
def allVarsNeeded : List String :=
  all_debt_exact_vars ++ all_debt_interval_vars ++ all_asset_exact_vars ++
    all_asset_interval_vars ++ [vehicle_in_business_col, vehicle_in_business_col_it]

/-! ## Bracket tables of the midpoint resolver (source lines 152-252) -/

def map1 : List (ℚ × ℚ) :=
  [(1, 5000), (2, 20000), (3, 40000), (4, 60000), (5, 85000), (6, 200000),
   (7, 400000), (8, 750000), (9, 3000000), (10, 7500000), (11, 15000000)]

def vars_map1 : List String :=
  ["b2003ait", "b2050it", "b2059it", "b2063it", "b2080it", "d3109it", "d3110it",
   "d4103it", "d5107it", "d5108it", "d6100ait", "d8104it", "d9103it", "d9110ait",
   "k2102cit", "c3019ait"]

def map2 : List (ℚ × ℚ) := map1

def vars_map2 : List String := ["b2003bit", "b2052it"]

def map3 : List (ℚ × ℚ) :=
  [(1, 5000), (2, 15000), (3, 35000), (4, 75000), (5, 150000), (6, 250000),
   (7, 400000), (8, 750000), (9, 1500000), (10, 3500000), (11, 7500000)]

def vars_map3 : List String :=
  ["b2003eit", "b2055it", "a3136it", "d3117it", "b2046it", "b3004bit", "b3005bit",
   "b3005it", "b3006ait", "b3030dit", "b3030eit", "b3031ait", "b3045cit", "b3056ait",
   "c3017cait", "c3019cit", "c3019eit", "c7052bit", "c7060it", "c7061it", "c7062it",
   "c8007it", "d1105it", "d2104it", "d3103it", "d7106hit", "d7110ait", "e1006it",
   "e1022it", "e3003cit", "e4003it", "h2004it", "c2035ait"]

def map4 : List (ℚ × ℚ) :=
  [(1, 2500), (2, 7500), (3, 15000), (4, 35000), (5, 75000), (6, 125000),
   (7, 175000), (8, 250000), (9, 400000), (10, 750000), (11, 1500000)]

def vars_map4 : List String :=
  ["b2093it", "a3136ait", "a3136bit", "a3137it", "b2110it", "d5109it", "d7106jit",
   "d7112it", "d9105it", "d9108it", "d9110bit", "k1101it", "k2208it", "f1010it",
   "f1031it"]

def map5 : List (ℚ × ℚ) :=
  [(1, 500), (2, 1500), (3, 3500), (4, 7500), (5, 15000), (6, 35000), (7, 75000),
   (8, 150000)]

def vars_map5 : List String := ["b3008fit"]

def map6 : List (ℚ × ℚ) :=
  [(1, 25), (2, 60.5), (3, 80.5), (4, 95.5), (5, 110.5), (6, 132), (7, 172), (8, 300)]

def vars_map6 : List String := ["c1000bbit"]

def map7 : List (ℚ × ℚ) :=
  [(1, 50000), (2, 200000), (3, 400000), (4, 600000), (5, 850000), (6, 1250000),
   (7, 2250000), (8, 4000000), (9, 6000000), (10, 8500000), (11, 12500000),
   (12, 17500000), (13, 30000000)]

def vars_map7 : List String := ["c1000bdit"]

def map8 : List (ℚ × ℚ) :=
  [(1, 5000), (2, 15000), (3, 35000), (4, 75000), (5, 150000), (6, 250000),
   (7, 400000), (8, 750000), (9, 1500000), (10, 3500000), (11, 6000000),
   (12, 8500000), (13, 12500000), (14, 17500000), (15, 30000000)]

def vars_map8 : List String := ["c2000fit"]

def map9 : List (ℚ × ℚ) :=
  [(1, 5000), (2, 20000), (3, 40000), (4, 60000), (5, 85000), (6, 200000),
   (7, 400000), (8, 750000), (9, 3000000), (10, 7500000), (11, 12500000),
   (12, 17500000), (13, 30000000)]

def vars_map9 : List String := ["c2013it", "c2016it"]

def map10 : List (ℚ × ℚ) :=
  [(1, 50000), (2, 150000), (3, 350000), (4, 650000), (5, 900000), (6, 1250000),
   (7, 1750000), (8, 3500000), (9, 6500000), (10, 9000000), (11, 15000000)]

def vars_map10 : List String := ["c2027dit", "c2032it", "c2064it"]

def map11 : List (ℚ × ℚ) :=
  [(1, 500), (2, 2000), (3, 4000), (4, 6500), (5, 9000), (6, 12500), (7, 17500),
   (8, 25000), (9, 40000), (10, 75000)]

def vars_map11 : List String := ["c2045it"]

def map12 : List (ℚ × ℚ) :=
  [(1, 25000), (2, 75000), (3, 150000), (4, 250000), (5, 400000), (6, 650000),
   (7, 900000), (8, 1250000), (9, 1750000), (10, 3500000), (11, 7500000)]

def vars_map12 : List String := ["c3002it", "c3002ait"]

def map13 : List (ℚ × ℚ) :=
  [(1, 5000), (2, 15000), (3, 35000), (4, 75000), (5, 150000), (6, 250000),
   (7, 400000), (8, 750000), (9, 1500000), (10, 3500000), (11, 7500000)]

def vars_map13 : List String := ["c3024it", "c3025it", "d4111it", "d6116it"]

def map14 : List (ℚ × ℚ) :=
  [(1, 1000), (2, 3500), (3, 7500), (4, 15000), (5, 35000), (6, 75000), (7, 125000),
   (8, 175000), (9, 250000), (10, 400000), (11, 750000)]

def vars_map14 : List String :=
  ["c8002ait", "g1017it", "g1018it", "g1019it", "g1019ait", "g1020it", "c8005ait",
   "f2006it", "f4011it"]

def map15 : List (ℚ × ℚ) :=
  [(1, 10000), (2, 35000), (3, 75000), (4, 150000), (5, 350000), (6, 750000),
   (7, 1500000), (8, 3500000), (9, 7500000), (10, 15000000), (11, 30000000)]

def vars_map15 : List String := ["d8106it"]

def map16 : List (ℚ × ℚ) :=
  [(1, 5000), (2, 15000), (3, 35000), (4, 75000), (5, 150000), (6, 250000),
   (7, 400000), (8, 750000), (9, 1500000), (10, 3500000), (11, 7500000)]

def vars_map16 : List String := ["e3005cit"]

def map17 : List (ℚ × ℚ) :=
  [(1, 25), (2, 75), (3, 125), (4, 225), (5, 400), (6, 650), (7, 1150), (8, 2250),
   (9, 4000), (10, 7500), (11, 15000), (12, 25000), (13, 40000), (14, 75000)]

def vars_map17 : List String := ["f1005it"]

/-- Bracket 4 is genuinely absent in the questionnaire (table with a gap). -/
def map18 : List (ℚ × ℚ) :=
  [(1, 100), (2, 250), (3, 400), (5, 750), (6, 1500), (7, 2500), (8, 4000),
   (9, 6500), (10, 11500), (11, 17500), (12, 30000)]

def vars_map18 : List String := ["f4005it"]

/-- Bracket 4 is genuinely absent here as well. -/
def map19 : List (ℚ × ℚ) :=
  [(1, 500), (2, 2000), (3, 4000), (5, 7500), (6, 15000), (7, 35000), (8, 75000),
   (9, 125000), (10, 175000), (11, 250000), (12, 400000), (13, 750000), (14, 1500000)]

def vars_map19 : List String := ["f4008it"]

def map20 : List (ℚ × ℚ) :=
  [(1, 250), (2, 750), (3, 1500), (4, 3500), (5, 7500), (6, 15000), (7, 30000)]

def vars_map20 : List String := ["h3351it"]

def map21 : List (ℚ × ℚ) :=
  [(1, 250), (2, 750), (3, 2000), (4, 4000), (5, 7500), (6, 15000), (7, 35000),
   (8, 75000)]

def vars_map21 : List String := ["h3354it", "h3356it"]

def map22 : List (ℚ × ℚ) :=
  [(1, 50), (2, 300), (3, 750), (4, 3000), (5, 7500), (6, 30000), (7, 75000)]

def vars_map22 : List String := ["h3367it", "h3368it", "h3369it"]

def map23 : List (ℚ × ℚ) :=
  [(1, 150), (2, 450), (3, 800), (4, 1250), (5, 2250), (6, 4500), (7, 8000),
   (8, 15000), (9, 35000), (10, 75000), (11, 150000)]

def vars_map23 : List String := ["g1024it"]

/-! ## Midpoint resolver (source lines 134-281) -/

/-- Keys of the Python dicts are ints and the interval code arrives as a float;
Python's numeric dict lookup compares them numerically, which the cast-free
`ℚ`-keyed association list reproduces.  `find?` on an association list with
distinct keys is dict lookup; `dict.get(code, nan)` is the `Option`-valued
lookup. -/
def lookupTab (t : List (ℚ × ℚ)) (c : ℚ) : Option ℚ :=
  (t.find? (fun p => p.1 == c)).map Prod.snd

/-- Source line 150: strip a trailing slot suffix.
`var_name.split(sep)[0] if sep in var_name and var_name[-2] == sep else var_name`
with `sep` the underscore. -/
def baseVarName (s : String) : String :=
  if s.data.contains '_' && (s.data.getD (s.data.length - 2) ' ' == '_') then
    String.mk (s.data.takeWhile (fun c => c != '_'))
  else s

/-- The "Apply Mapping" chain of `get_midpoint` (source lines 254-281): the
normalized name is tested against the 23 variable lists in order and the code
is looked up in the matching bracket table; unmatched names fall through to
`NaN`. -/
def applyMapping (b : String) (c : ℚ) : Option ℚ :=
  if b ∈ vars_map1 then lookupTab map1 c
  else if b ∈ vars_map2 then lookupTab map2 c
  else if b ∈ vars_map3 then lookupTab map3 c
  else if b ∈ vars_map4 then lookupTab map4 c
  else if b ∈ vars_map5 then lookupTab map5 c
  else if b ∈ vars_map6 then lookupTab map6 c
  else if b ∈ vars_map7 then lookupTab map7 c
  else if b ∈ vars_map8 then lookupTab map8 c
  else if b ∈ vars_map9 then lookupTab map9 c
  else if b ∈ vars_map10 then lookupTab map10 c
  else if b ∈ vars_map11 then lookupTab map11 c
  else if b ∈ vars_map12 then lookupTab map12 c
  else if b ∈ vars_map13 then lookupTab map13 c
  else if b ∈ vars_map14 then lookupTab map14 c
  else if b ∈ vars_map15 then lookupTab map15 c
  else if b ∈ vars_map16 then lookupTab map16 c
  else if b ∈ vars_map17 then lookupTab map17 c
  else if b ∈ vars_map18 then lookupTab map18 c
  else if b ∈ vars_map19 then lookupTab map19 c
  else if b ∈ vars_map20 then lookupTab map20 c
  else if b ∈ vars_map21 then lookupTab map21 c
  else if b ∈ vars_map22 then lookupTab map22 c
  else if b ∈ vars_map23 then lookupTab map23 c
  else none

/-- `get_midpoint(interval_code, var_name)` (source lines 134-281): `NaN`
codes resolve to `NaN` (line 146); otherwise the name is normalized
(line 150) and the mapping chain is applied. -/
def get_midpoint (interval_code : Option ℚ) (var_name : String) : Option ℚ :=
  match interval_code with
  | none => none
  | some c => applyMapping (baseVarName var_name) c

/-- The static binding from a normalized field identifier to its bracket
table: the same 23-way membership chain as `get_midpoint`, with the table
itself as the result. -/
def fieldTable (b : String) : Option (List (ℚ × ℚ)) :=
  if b ∈ vars_map1 then some map1
  else if b ∈ vars_map2 then some map2
  else if b ∈ vars_map3 then some map3
  else if b ∈ vars_map4 then some map4
  else if b ∈ vars_map5 then some map5
  else if b ∈ vars_map6 then some map6
  else if b ∈ vars_map7 then some map7
  else if b ∈ vars_map8 then some map8
  else if b ∈ vars_map9 then some map9
  else if b ∈ vars_map10 then some map10
  else if b ∈ vars_map11 then some map11
  else if b ∈ vars_map12 then some map12
  else if b ∈ vars_map13 then some map13
  else if b ∈ vars_map14 then some map14
  else if b ∈ vars_map15 then some map15
  else if b ∈ vars_map16 then some map16
  else if b ∈ vars_map17 then some map17
  else if b ∈ vars_map18 then some map18
  else if b ∈ vars_map19 then some map19
  else if b ∈ vars_map20 then some map20
  else if b ∈ vars_map21 then some map21
  else if b ∈ vars_map22 then some map22
  else if b ∈ vars_map23 then some map23
  else none

/-! ## Field coalescing (source lines 288-346)

One household's row of the household table is modelled as
* `cols : List String` — the columns structurally present in the loaded table;
* `v : String → Option ℚ` — the raw cell values of this household
  (`none` = `NaN`; only queried at present columns).
The synthesis step (lines 292-297) adds every absent needed column as all-`NaN`,
so a post-synthesis cell read is `synthVal`. -/

/-- Post-synthesis cell value: the raw value if the column was structurally
present, `NaN` if it was synthesized. -/
def synthVal (cols : List String) (v : String → Option ℚ) (c : String) : Option ℚ :=
  if c ∈ cols then v c else none

/-- Number of synthesized columns reported at source line 297
(`list(set(...))` dedups the needed-variable list). -/
def missingColsCount (cols : List String) : ℕ :=
  (allVarsNeeded.dedup.filter (fun c => decide (c ∉ cols))).length

/-- `Series.combine_first` cell-wise: keep `self` where not `NaN`, else take
`other`. -/
def combineFirst (a b : Option ℚ) : Option ℚ :=
  match a with
  | some x => some x
  | none => b

/-- One iteration of the coalescing loops (source lines 302-317 / 321-336):
presence tests run against the post-synthesis table (original columns plus
every needed column), the exact cell wins via `combine_first`, and the
midpoint column is `get_midpoint` applied to the interval cell. -/
def coalescedVal (cols : List String) (v : String → Option ℚ)
    (exact : String) (interval : Option String) : Option ℚ :=
  if ¬ (exact ∈ cols ∨ exact ∈ allVarsNeeded) then none
  else
    match interval with
    | some itv =>
      if itv ∈ cols ∨ itv ∈ allVarsNeeded then
        combineFirst (synthVal cols v exact) (get_midpoint (synthVal cols v itv) itv)
      else synthVal cols v exact
    | none => synthVal cols v exact

/-- Debt loop body at index `i`: `exact = all_debt_exact_vars[i]`,
`interval = all_debt_interval_vars[i] if i < len(...) else None`
(the pairing is positional, source lines 302-304). -/
def debtCoalesced (cols : List String) (v : String → Option ℚ) (i : ℕ) : Option ℚ :=
  match all_debt_exact_vars[i]? with
  | some e => coalescedVal cols v e all_debt_interval_vars[i]?
  | none => none

/-- Asset loop body at index `i` (source lines 321-323), same positional
pairing. -/
def assetCoalesced (cols : List String) (v : String → Option ℚ) (i : ℕ) : Option ℚ :=
  match all_asset_exact_vars[i]? with
  | some e => coalescedVal cols v e all_asset_interval_vars[i]?
  | none => none

/-! ## Household aggregation (source lines 348-365) -/

/-- `total_debt`: sum of the coalesced debt columns with `fillna(0)`
(source line 352). -/
def total_debt_of (cols : List String) (v : String → Option ℚ) : ℚ :=
  ((List.range all_debt_exact_vars.length).map
    (fun i => (debtCoalesced cols v i).getD 0)).sum

/-- `total_assets_raw` (source line 353). -/
def total_assets_raw_of (cols : List String) (v : String → Option ℚ) : ℚ :=
  ((List.range all_asset_exact_vars.length).map
    (fun i => (assetCoalesced cols v i).getD 0)).sum

/-- The vehicle-in-business adjustment column (source lines 338-346): coalesce
`c7062` with the midpoints of `c7062it` when both columns exist (they always do
after synthesis), else fall back as the source does. -/
def vehicleAdjVal (cols : List String) (v : String → Option ℚ) : Option ℚ :=
  if (vehicle_in_business_col ∈ cols ∨ vehicle_in_business_col ∈ allVarsNeeded) ∧
      (vehicle_in_business_col_it ∈ cols ∨ vehicle_in_business_col_it ∈ allVarsNeeded) then
    combineFirst (synthVal cols v vehicle_in_business_col)
      (get_midpoint (synthVal cols v vehicle_in_business_col_it) vehicle_in_business_col_it)
  else if vehicle_in_business_col ∈ cols ∨ vehicle_in_business_col ∈ allVarsNeeded then
    synthVal cols v vehicle_in_business_col
  else some 0

/-- `total_assets` (source lines 355-357): raw total minus the `fillna(0)`
vehicle adjustment, then `max(x, 0)`. -/
def total_assets_of (cols : List String) (v : String → Option ℚ) : ℚ :=
  max (total_assets_raw_of cols v - (vehicleAdjVal cols v).getD 0) 0

/-- `epsilon = 1e-9` (source line 362). -/
def epsilon : ℚ := 1 / 1000000000

/-- `debt_ratio` (source lines 363-365): the ratio with the `epsilon`-shifted
denominator, then the 0/0 row is overwritten with 0 and the positive/0 row
with `NaN` — the two `.loc` assignments are the nested conditionals. -/
def debt_ratio_of (d a : ℚ) : Option ℚ :=
  let r0 : Option ℚ := some (d / (a + epsilon))
  let r1 : Option ℚ := if d = 0 ∧ a = 0 then some 0 else r0
  if 0 < d ∧ a = 0 then none else r1

/-! ## Head-proxy extraction (source lines 42-71) -/

/-- The individual-table fields the extractor reads: relationship code
(`a2001`), birth year (`a2005`), brother and sister counts (`a2028`,
`a2029`). -/
structure IndRow where
  a2001 : Option ℚ
  a2005 : Option ℚ
  a2028 : Option ℚ
  a2029 : Option ℚ
deriving DecidableEq

/-- `head_age = 2017 - a2005` (source line 55); `NaN` birth year propagates. -/
def headAge (p : IndRow) : Option ℚ :=
  p.a2005.map (fun y => 2017 - y)

/-- `ind_df[ind_df['a2001'] == 1]` (source line 48): pandas `NaN == 1` is
false, so rows with a missing relationship code are dropped. -/
def headsOf (inds : List IndRow) : List IndRow :=
  inds.filter (fun p => decide (p.a2001 = some 1))

/-- The boolean of `heads_df['head_age'] >= 16` (source line 60): a `NaN` age
compares false. -/
def ageOK (p : IndRow) : Bool :=
  match headAge p with
  | some a => decide ((16 : ℚ) ≤ a)
  | none => false

/-- The retained head proxies after the age filter (source line 60). -/
def filteredHeads (inds : List IndRow) : List IndRow :=
  (headsOf inds).filter ageOK

/-- `removed_count` reported at source lines 61-63. -/
def removedCount (inds : List IndRow) : ℕ :=
  (headsOf inds).length - (filteredHeads inds).length

/-- `head_siblings_raw = a2028.fillna(0) + a2029.fillna(0)` (source line 70). -/
def head_siblings_raw (p : IndRow) : ℚ :=
  p.a2028.getD 0 + p.a2029.getD 0

/-- `head_siblings = np.where(head_age <= 40, head_siblings_raw, np.nan)`
(source line 71); a `NaN` age compares false, giving `NaN`. -/
def head_siblings (p : IndRow) : Option ℚ :=
  match headAge p with
  | some a => if a ≤ 40 then some (head_siblings_raw p) else none
  | none => none

/-! ## Winsorization of the debt-ratio column (source lines 370-377)

`scipy.stats.mstats.winsorize(x, limits=[0.01, 0.01])` with the default
inclusive limits computes `lowidx = int(0.01 * n)` and
`upidx = n - int(0.01 * n)` over the `n` sorted entries, then overwrites the
entries at sorted positions below `lowidx` with the `lowidx`-th order
statistic and those at positions `upidx` and above with the `(upidx-1)`-th.
Value-wise that is exactly clamping every entry into the closed interval
spanned by those two order statistics (ties at the boundary receive the same
value either way), which is how `winsorizeList` renders it; `int(0.01 * n)`
agrees with `n / 100` in ℕ for every realistic `n`.  The pipeline drops the
`NaN`/infinite entries first and re-inserts `NaN` at their positions
(`winsorizeColumn`). -/

/-- Clamp into `[lo, hi]`. -/
def clampQ (lo hi x : ℚ) : ℚ := min (max x lo) hi

/-- The entries in ascending order. -/
def sortQ (xs : List ℚ) : List ℚ :=
  Multiset.sort (· ≤ ·) (↑xs)

/-- One winsorization pass at limits 1%/1% over a clean (finite, non-missing)
list. -/
def winsorizeList (xs : List ℚ) : List ℚ :=
  match (sortQ xs)[xs.length / 100]?, (sortQ xs)[xs.length - xs.length / 100 - 1]? with
  | some lo, some hi => xs.map (clampQ lo hi)
  | _, _ => xs

/-- Reinsertion of winsorized values at their original row positions:
`pd.Series(winsorized_values, index=debt_ratio_clean.index)` reindexed over
all rows leaves `NaN` rows `NaN` and feeds the clean rows in order. -/
def fillBack : List (Option ℚ) → List ℚ → List (Option ℚ)
  | [], _ => []
  | none :: rest, vs => none :: fillBack rest vs
  | some _ :: rest, [] => none :: fillBack rest []
  | some _ :: rest, w :: ws => some w :: fillBack rest ws

/-- The whole `debt_ratio_winsorized` computation (source lines 370-377): drop
missing entries, winsorize the clean list if non-empty, re-insert; an empty
clean list yields an all-missing column. -/
def winsorizeColumn (col : List (Option ℚ)) : List (Option ℚ) :=
  let clean := col.filterMap id
  if clean = [] then col.map (fun _ => none)
  else fillBack col (winsorizeList clean)

/-! ## Theorems -/

/-- Bridge: the 23-way conditional chain of `get_midpoint` is the lookup
through the static field-to-table binding. -/
theorem applyMapping_eq (b : String) (c : ℚ) :
    applyMapping b c = (fieldTable b).bind (fun t => lookupTab t c) := by
  unfold applyMapping fieldTable
  simp only [apply_ite (fun o : Option (List (ℚ × ℚ)) => o.bind (fun t => lookupTab t c)),
    Option.some_bind, Option.none_bind]

/-- Bridge, lifted to `get_midpoint`. -/
theorem get_midpoint_eq (oc : Option ℚ) (name : String) :
    get_midpoint oc name =
      oc.bind (fun c => (fieldTable (baseVarName name)).bind (fun t => lookupTab t c)) := by
  cases oc with
  | none => rfl
  | some c =>
    rw [Option.some_bind]
    exact applyMapping_eq (baseVarName name) c

/-- C2: for every interval code and field identifier, `get_midpoint` returns
missing when the code is missing, when the normalized field identifier has no
bracket-table binding, or when the code is absent from the bound bracket
table; in none of these cases does it return 0 or a neighboring bracket's
value. -/
theorem get_midpoint_unmapped_missing (oc : Option ℚ) (name : String)
    (h : oc = none ∨ fieldTable (baseVarName name) = none ∨
      ∃ c t, oc = some c ∧ fieldTable (baseVarName name) = some t ∧ lookupTab t c = none) :
    get_midpoint oc name = none := by
  rw [get_midpoint_eq]
  rcases h with h | h | ⟨c, t, hc, ht, hl⟩
  · simp [h]
  · simp [h]
  · simp [hc, ht, hl]

/-- Witness for C2: a missing code, the genuinely absent bracket number 4 of
`f4005it`'s table, and an identifier with no binding. -/
theorem get_midpoint_unmapped_missing_witness :
    get_midpoint none "c2016it_3" = none ∧
    get_midpoint (some 4) "f4005it" = none ∧
    get_midpoint (some 7) "zzz9" = none :=
  ⟨get_midpoint_unmapped_missing none "c2016it_3" (Or.inl rfl),
   get_midpoint_unmapped_missing (some 4) "f4005it"
     (Or.inr (Or.inr ⟨4, map18, rfl, by decide, by decide⟩)),
   get_midpoint_unmapped_missing (some 7) "zzz9" (Or.inr (Or.inl (by decide)))⟩

/-- C3: the debt ratio is exactly 0 when both totals are 0, missing when the
debt is positive and the assets are 0, and otherwise the epsilon-shifted
quotient, which is (finite in ℚ by construction and) non-negative for
non-negative totals. -/
theorem debt_ratio_spec (d a : ℚ) (hd : 0 ≤ d) (ha : 0 ≤ a) :
    (d = 0 ∧ a = 0 → debt_ratio_of d a = some 0) ∧
    (0 < d ∧ a = 0 → debt_ratio_of d a = none) ∧
    (a ≠ 0 → debt_ratio_of d a = some (d / (a + epsilon)) ∧ 0 ≤ d / (a + epsilon)) := by
  refine ⟨?_, ?_, ?_⟩
  · rintro ⟨h1, h2⟩
    subst h1
    subst h2
    simp [debt_ratio_of]
  · rintro ⟨h1, h2⟩
    subst h2
    simp [debt_ratio_of, h1, h1.ne']
  · intro hne
    constructor
    · simp [debt_ratio_of, hne]
    · have hpos : 0 < a + epsilon := by
        have : (0 : ℚ) < epsilon := by norm_num [epsilon]
        linarith
      exact div_nonneg hd hpos.le

/-- Witness for C3 at the three concrete cases (0,0), (2,0) and (2,3). -/
theorem debt_ratio_spec_witness :
    debt_ratio_of 0 0 = some 0 ∧
    debt_ratio_of 2 0 = none ∧
    debt_ratio_of 2 3 = some (2 / (3 + epsilon)) := by
  refine ⟨(debt_ratio_spec 0 0 le_rfl le_rfl).1 ⟨rfl, rfl⟩,
    (debt_ratio_spec 2 0 (by norm_num) le_rfl).2.1 ⟨by norm_num, rfl⟩,
    ((debt_ratio_spec 2 3 (by norm_num) (by norm_num)).2.2 (by norm_num)).1⟩

/-- C4: when both the exact cell and the interval cell of a concept are
populated, the coalesced value is the exact cell; the midpoint is only ever
taken where the exact cell is missing. -/
theorem coalesce_exact_dominates (cols : List String) (v : String → Option ℚ)
    (e itv : String) (x c : ℚ)
    (he : e ∈ cols ∨ e ∈ allVarsNeeded) (hi : itv ∈ cols ∨ itv ∈ allVarsNeeded)
    (hx : synthVal cols v e = some x) (_hc : synthVal cols v itv = some c) :
    coalescedVal cols v e (some itv) = some x := by
  simp only [coalescedVal]
  rw [if_neg (not_not_intro he), if_pos hi, hx]
  rfl

/-- Witness for C4: a household with `b2003d = 42` and `b2003dit = 2`
coalesces to 42. -/
theorem coalesce_exact_dominates_witness :
    coalescedVal ["b2003d", "b2003dit"]
      (fun s => if s = "b2003d" then some 42 else if s = "b2003dit" then some 2 else none)
      "b2003d" (some "b2003dit") = some 42 :=
  coalesce_exact_dominates _ _ "b2003d" "b2003dit" 42 2
    (by decide) (by decide) (by decide) (by decide)

/-- C5: `total_assets` is the raw total minus the vehicle-in-business
adjustment floored at 0, hence never negative. -/
theorem total_assets_floor (cols : List String) (v : String → Option ℚ) :
    0 ≤ total_assets_of cols v ∧
    total_assets_raw_of cols v - (vehicleAdjVal cols v).getD 0 ≤ total_assets_of cols v ∧
    total_assets_of cols v =
      max (total_assets_raw_of cols v - (vehicleAdjVal cols v).getD 0) 0 :=
  ⟨le_max_right _ _, le_max_left _ _, rfl⟩

/-- Sum with missing-as-zero equals the sum of the present values. -/
theorem sum_getD_eq_sum_filterMap (l : List (Option ℚ)) :
    (l.map (fun o => o.getD 0)).sum = (l.filterMap id).sum := by
  induction l with
  | nil => rfl
  | cons h t ih => cases h <;> simp [List.filterMap_cons, ih]

/-- C10: both totals are defined (ℚ-valued) for every household: the
missing-as-zero sums of the coalesced component columns equal the plain sums
of their present values, so no household's total is ever missing; of the
aggregator's outputs only `debt_ratio_of` is `Option`-valued. -/
theorem totals_never_missing (cols : List String) (v : String → Option ℚ) :
    total_debt_of cols v =
      ((List.range all_debt_exact_vars.length).filterMap
        (fun i => debtCoalesced cols v i)).sum ∧
    total_assets_raw_of cols v =
      ((List.range all_asset_exact_vars.length).filterMap
        (fun i => assetCoalesced cols v i)).sum := by
  constructor
  · have h := sum_getD_eq_sum_filterMap
      ((List.range all_debt_exact_vars.length).map (fun i => debtCoalesced cols v i))
    rw [List.map_map, List.filterMap_map] at h
    exact h
  · have h := sum_getD_eq_sum_filterMap
      ((List.range all_asset_exact_vars.length).map (fun i => assetCoalesced cols v i))
    rw [List.map_map, List.filterMap_map] at h
    exact h

/-- C6: every retained head proxy has a present age; the sibling count is
missing beyond age 40 and the zero-filled brother+sister sum at age at most
40. -/
theorem head_siblings_spec (inds : List IndRow) (p : IndRow)
    (hp : p ∈ filteredHeads inds) :
    ∃ a, headAge p = some a ∧
      (40 < a → head_siblings p = none) ∧
      (a ≤ 40 → head_siblings p = some (p.a2028.getD 0 + p.a2029.getD 0)) := by
  have hb : ageOK p = true := (List.mem_filter.mp hp).2
  unfold ageOK at hb
  rcases hage : headAge p with _ | a
  · rw [hage] at hb; exact absurd hb (by simp)
  · rw [hage] at hb
    have hs : head_siblings p = if a ≤ 40 then some (head_siblings_raw p) else none := by
      unfold head_siblings
      rw [hage]
    refine ⟨a, rfl, ?_, ?_⟩
    · intro h40
      rw [hs, if_neg (not_le.mpr h40)]
    · intro h40
      rw [hs, if_pos h40]
      rfl

/-- Witness for C6: a 1990-born respondent (age 27) with two brothers gets
sibling count 2. -/
theorem head_siblings_spec_witness :
    head_siblings ⟨some 1, some 1990, some 2, none⟩ = some 2 := by
  obtain ⟨a, ha, -, h2⟩ :=
    head_siblings_spec [⟨some 1, some 1990, some 2, none⟩]
      ⟨some 1, some 1990, some 2, none⟩
      (by norm_num [filteredHeads, headsOf, ageOK, headAge, List.filter])
  have h27 : headAge ⟨some 1, some 1990, some 2, none⟩ = some 27 := by
    norm_num [headAge]
  rw [h27] at ha
  obtain rfl : (27 : ℚ) = a := Option.some_injective _ ha
  simpa using h2 (by norm_num)

/-- C9: no retained head proxy has age below 16, and every respondent row
whose computed age is below 16 is excluded by the filter. -/
theorem head_age_filter (inds : List IndRow) (p : IndRow) :
    (p ∈ filteredHeads inds → ∃ a, headAge p = some a ∧ 16 ≤ a) ∧
    (p ∈ headsOf inds → (∃ a, headAge p = some a ∧ a < 16) →
      p ∉ filteredHeads inds) := by
  constructor
  · intro hp
    have hb : ageOK p = true := (List.mem_filter.mp hp).2
    unfold ageOK at hb
    rcases hage : headAge p with _ | a
    · rw [hage] at hb; exact absurd hb (by simp)
    · rw [hage] at hb
      exact ⟨a, rfl, of_decide_eq_true hb⟩
  · rintro hh ⟨a, hage, hlt⟩ hmem
    have hb : ageOK p = true := (List.mem_filter.mp hmem).2
    unfold ageOK at hb
    rw [hage] at hb
    exact absurd (of_decide_eq_true hb) (not_le.mpr hlt)

/-- Witness for C9: the 1990-born respondent is retained with age 27 and the
2005-born respondent (age 12) is excluded. -/
theorem head_age_filter_witness :
    (∃ a, headAge ⟨some 1, some 1990, none, none⟩ = some a ∧ (16 : ℚ) ≤ a) ∧
    (⟨some 1, some 2005, none, none⟩ : IndRow) ∉
      filteredHeads [⟨some 1, some 1990, none, none⟩, ⟨some 1, some 2005, none, none⟩] := by
  constructor
  · exact (head_age_filter [⟨some 1, some 1990, none, none⟩,
      ⟨some 1, some 2005, none, none⟩] ⟨some 1, some 1990, none, none⟩).1
      (by norm_num [filteredHeads, headsOf, ageOK, headAge, List.filter])
  · exact (head_age_filter _ ⟨some 1, some 2005, none, none⟩).2
      (by norm_num [headsOf, List.filter])
      ⟨12, by norm_num [headAge], by norm_num⟩

/-- C1: the coalescing loops pair exact and interval fields by list index, but
the debt lists have 27 and 25 entries, so the pairing is shifted: the
bank-business-loan field `b3005b_2` — which has no interval field of its own —
is paired with `b3031ait_2` (the private-business-loan interval field) and
falls back to that foreign concept's midpoint, here bracket 1 of table 3,
namely 5000, instead of staying missing; on the asset side (33 vs 29 entries)
the commercial-vehicle field `c7059` is likewise paired with the
checking-deposit interval field `d1105it`. -/
theorem coalesce_pairing_misaligned :
    all_debt_exact_vars.length = 27 ∧
    all_debt_interval_vars.length = 25 ∧
    all_debt_exact_vars[0]? = some "b3005b_2" ∧
    all_debt_interval_vars[0]? = some "b3031ait_2" ∧
    all_asset_exact_vars[10]? = some "c7059" ∧
    all_asset_interval_vars[10]? = some "d1105it" ∧
    debtCoalesced ["b3005b_2", "b3031ait_2"]
      (fun c => if c = "b3031ait_2" then some 1 else none) 0 = some 5000 :=
  ⟨by decide, by decide, by decide, by decide, by decide, by decide, by decide⟩

/-- Counterexample for C7: with the exact column `c2016_1` structurally
absent (synthesized all-missing) but its interval column `c2016it_1` present
and coded 1, the coalesced value is the bracket-1 midpoint 5000 of table 9,
not missing. -/
theorem coalesce_absent_exact_cex :
    "c2016_1" ∉ (["c2016it_1"] : List String) ∧
    coalescedVal ["c2016it_1"] (fun c => if c = "c2016it_1" then some 1 else none)
      "c2016_1" (some "c2016it_1") = some 5000 :=
  ⟨by decide, by decide⟩

/-- C7 (amended): a structurally absent exact field of the catalog is
synthesized (no failure, the synthesized-column count is positive and
reported); the coalesced column then equals the midpoint-resolved interval
column — so it is missing exactly where that fallback is missing, and
entirely missing when the concept has no paired interval field. -/
theorem coalesce_absent_exact (cols : List String) (v : String → Option ℚ)
    (e itv : String) (he : e ∉ cols) (hen : e ∈ allVarsNeeded)
    (hit : itv ∈ allVarsNeeded) :
    coalescedVal cols v e (some itv) = get_midpoint (synthVal cols v itv) itv ∧
    coalescedVal cols v e none = none ∧
    0 < missingColsCount cols := by
  have hse : synthVal cols v e = none := by simp [synthVal, he]
  refine ⟨?_, ?_, ?_⟩
  · simp only [coalescedVal]
    rw [if_neg (not_not_intro (Or.inr hen)), if_pos (Or.inr hit), hse]
    rfl
  · simp only [coalescedVal]
    rw [if_neg (not_not_intro (Or.inr hen))]
    exact hse
  · have h1 : e ∈ allVarsNeeded.dedup := List.mem_dedup.mpr hen
    have h2 : e ∈ allVarsNeeded.dedup.filter (fun c => decide (c ∉ cols)) :=
      List.mem_filter.mpr ⟨h1, by simpa using he⟩
    exact List.length_pos.mpr (List.ne_nil_of_mem h2)

/-- Witness for C7's amended statement at the `b2003d`/`b2003dit` concept. -/
theorem coalesce_absent_exact_witness :
    coalescedVal ["b2003dit"] (fun _ => some 1) "b2003d" (some "b2003dit") =
      get_midpoint (synthVal ["b2003dit"] (fun _ => some 1) "b2003dit") "b2003dit" ∧
    coalescedVal ["b2003dit"] (fun _ => some 1) "b2003d" none = none ∧
    0 < missingColsCount ["b2003dit"] :=
  coalesce_absent_exact ["b2003dit"] (fun _ => some 1) "b2003d" "b2003dit"
    (by decide) (by decide) (by decide)

/-! ## Winsorization lemmas -/

theorem sortQ_length (xs : List ℚ) : (sortQ xs).length = xs.length := by
  simp [sortQ, Multiset.length_sort]

theorem sortQ_sorted (xs : List ℚ) : (sortQ xs).Sorted (· ≤ ·) :=
  Multiset.sort_sorted _ _

theorem sortQ_perm (xs : List ℚ) : (sortQ xs).Perm xs :=
  Multiset.coe_eq_coe.mp (Multiset.sort_eq (α := ℚ) (· ≤ ·) (↑xs))

theorem monotone_clampQ (lo hi : ℚ) : Monotone (clampQ lo hi) := fun _ _ hab =>
  min_le_min (max_le_max hab le_rfl) le_rfl

theorem sorted_map_of_monotone {f : ℚ → ℚ} (hf : Monotone f) {l : List ℚ}
    (hl : l.Sorted (· ≤ ·)) : (l.map f).Sorted (· ≤ ·) :=
  List.Pairwise.map f (fun _ _ h => hf h) hl

theorem sortQ_map (f : ℚ → ℚ) (hf : Monotone f) (xs : List ℚ) :
    sortQ (xs.map f) = (sortQ xs).map f := by
  haveI : IsAntisymm ℚ (fun x1 x2 : ℚ => x1 ≤ x2) := ⟨fun _ _ h1 h2 => le_antisymm h1 h2⟩
  refine List.eq_of_perm_of_sorted (r := fun x1 x2 : ℚ => x1 ≤ x2) ?_ ?_ ?_
  · exact (sortQ_perm _).trans ((sortQ_perm xs).map f).symm
  · exact sortQ_sorted _
  · exact sorted_map_of_monotone hf (sortQ_sorted xs)

theorem sorted_getElem?_le {l : List ℚ} (hs : l.Sorted (· ≤ ·)) {i j : ℕ}
    (hij : i ≤ j) {x y : ℚ} (hx : l[i]? = some x) (hy : l[j]? = some y) : x ≤ y := by
  have hi : i < l.length := by
    by_contra h
    rw [List.getElem?_eq_none (le_of_not_lt h)] at hx
    exact Option.noConfusion hx
  have hj : j < l.length := by
    by_contra h
    rw [List.getElem?_eq_none (le_of_not_lt h)] at hy
    exact Option.noConfusion hy
  rw [List.getElem?_eq_getElem hi] at hx
  rw [List.getElem?_eq_getElem hj] at hy
  obtain rfl : x = l[i] := (Option.some_injective _ hx).symm
  obtain rfl : y = l[j] := (Option.some_injective _ hy).symm
  exact List.Sorted.rel_get_of_le hs (a := ⟨i, hi⟩) (b := ⟨j, hj⟩) hij

theorem clampQ_idem {lo hi : ℚ} (h : lo ≤ hi) (x : ℚ) :
    clampQ lo hi (clampQ lo hi x) = clampQ lo hi x := by
  unfold clampQ
  have h1 : lo ≤ min (max x lo) hi := le_min (le_max_right x lo) h
  have h2 : min (max x lo) hi ≤ hi := min_le_right _ _
  rw [max_eq_left h1, min_eq_left h2]

theorem winsorizeList_clamp (xs : List ℚ) {lo hi : ℚ}
    (hlo : (sortQ xs)[xs.length / 100]? = some lo)
    (hhi : (sortQ xs)[xs.length - xs.length / 100 - 1]? = some hi) :
    winsorizeList xs = xs.map (clampQ lo hi) := by
  unfold winsorizeList
  rw [hlo, hhi]

theorem winsorizeList_idem (xs : List ℚ) :
    winsorizeList (winsorizeList xs) = winsorizeList xs := by
  rcases eq_or_ne xs [] with rfl | hne
  · have h0 : winsorizeList ([] : List ℚ) = [] := by
      unfold winsorizeList
      have hnone : (sortQ ([] : List ℚ))[([] : List ℚ).length / 100]? = none := by
        rw [List.getElem?_eq_none]
        rw [sortQ_length]
        simp
      rw [hnone]
    simp only [h0]
  · have hn : xs.length ≠ 0 := fun h => hne (List.length_eq_zero.mp h)
    have h3 : xs.length / 100 ≤ xs.length - xs.length / 100 - 1 := by omega
    have h2 : xs.length - xs.length / 100 - 1 < xs.length := by omega
    have h1 : xs.length / 100 < xs.length := lt_of_le_of_lt h3 h2
    obtain ⟨lo, hlo⟩ : ∃ lo, (sortQ xs)[xs.length / 100]? = some lo := by
      rw [List.getElem?_eq_getElem (by rw [sortQ_length]; exact h1)]
      exact ⟨_, rfl⟩
    obtain ⟨hi, hhi⟩ : ∃ hi, (sortQ xs)[xs.length - xs.length / 100 - 1]? = some hi := by
      rw [List.getElem?_eq_getElem (by rw [sortQ_length]; exact h2)]
      exact ⟨_, rfl⟩
    have hlohi : lo ≤ hi := sorted_getElem?_le (sortQ_sorted xs) h3 hlo hhi
    have hw : winsorizeList xs = xs.map (clampQ lo hi) := winsorizeList_clamp xs hlo hhi
    rw [hw]
    have hlen : (xs.map (clampQ lo hi)).length = xs.length := List.length_map _ _
    have hsort : sortQ (xs.map (clampQ lo hi)) = (sortQ xs).map (clampQ lo hi) :=
      sortQ_map _ (monotone_clampQ lo hi) xs
    have hclo : clampQ lo hi lo = lo := by
      unfold clampQ
      rw [max_self]
      exact min_eq_left hlohi
    have hchi : clampQ lo hi hi = hi := by
      unfold clampQ
      rw [max_eq_left hlohi]
      exact min_self hi
    have hlo2 : (sortQ (xs.map (clampQ lo hi)))[(xs.map (clampQ lo hi)).length / 100]? =
        some lo := by
      rw [hlen, hsort, List.getElem?_map, hlo]
      simp [hclo]
    have hhi2 : (sortQ (xs.map (clampQ lo hi)))[(xs.map (clampQ lo hi)).length -
        (xs.map (clampQ lo hi)).length / 100 - 1]? = some hi := by
      rw [hlen, hsort, List.getElem?_map, hhi]
      simp [hchi]
    rw [winsorizeList_clamp _ hlo2 hhi2, List.map_map]
    have hcomp : clampQ lo hi ∘ clampQ lo hi = clampQ lo hi := by
      funext x
      exact clampQ_idem hlohi x
    rw [hcomp]

theorem winsorizeList_length (xs : List ℚ) : (winsorizeList xs).length = xs.length := by
  unfold winsorizeList
  split
  · exact List.length_map _ _
  · rfl

theorem fillBack_filterMap (col : List (Option ℚ)) (vs : List ℚ)
    (h : vs.length = (col.filterMap id).length) :
    (fillBack col vs).filterMap id = vs := by
  induction col generalizing vs with
  | nil =>
    cases vs with
    | nil => rfl
    | cons w ws => simp at h
  | cons o rest ih =>
    cases o with
    | none =>
      simp only [List.filterMap_cons, id_eq] at h
      simp only [fillBack, List.filterMap_cons, id_eq]
      exact ih vs h
    | some x =>
      simp only [List.filterMap_cons, id_eq, List.length_cons] at h
      cases vs with
      | nil => simp at h
      | cons w ws =>
        simp only [fillBack, List.filterMap_cons, id_eq]
        simp only [List.length_cons] at h
        rw [ih ws (by omega)]

theorem fillBack_fillBack (col : List (Option ℚ)) (vs ws : List ℚ)
    (h : vs.length = (col.filterMap id).length) :
    fillBack (fillBack col vs) ws = fillBack col ws := by
  induction col generalizing vs ws with
  | nil => rfl
  | cons o rest ih =>
    cases o with
    | none =>
      simp only [List.filterMap_cons, id_eq] at h
      simp only [fillBack]
      rw [ih vs ws h]
    | some x =>
      simp only [List.filterMap_cons, id_eq, List.length_cons] at h
      cases vs with
      | nil => simp at h
      | cons v vs2 =>
        simp only [List.length_cons] at h
        have h : vs2.length = (List.filterMap id rest).length := by omega
        cases ws with
        | nil =>
          simp only [fillBack]
          rw [ih vs2 [] h]
        | cons w ws2 =>
          simp only [fillBack]
          rw [ih vs2 ws2 h]

/-- C8: winsorization of the debt-ratio column at the 1%/99% limits is
idempotent — applying it a second time to the already-winsorized column, with
the cut points recomputed on the winsorized finite non-missing subset,
changes no values (missing entries stay missing in both passes). -/
theorem winsorizeColumn_idem (col : List (Option ℚ)) :
    winsorizeColumn (winsorizeColumn col) = winsorizeColumn col := by
  unfold winsorizeColumn
  by_cases hc : col.filterMap id = []
  · rw [if_pos hc]
    have h2 : (col.map (fun _ => none)).filterMap (id : Option ℚ → Option ℚ) = [] := by
      rw [List.filterMap_map]
      simp
    rw [if_pos h2, List.map_map]
    rfl
  · rw [if_neg hc]
    have hlen : (winsorizeList (col.filterMap id)).length = (col.filterMap id).length :=
      winsorizeList_length _
    have hfm : (fillBack col (winsorizeList (col.filterMap id))).filterMap id =
        winsorizeList (col.filterMap id) :=
      fillBack_filterMap col _ hlen
    have hne2 : (fillBack col (winsorizeList (col.filterMap id))).filterMap id ≠ [] := by
      rw [hfm]
      intro h
      apply hc
      have := winsorizeList_length (col.filterMap id)
      rw [h] at this
      exact List.length_eq_zero.mp this.symm
    rw [if_neg hne2, hfm, winsorizeList_idem]
    exact fillBack_fillBack col _ _ hlen
